import Mathlib

/-!
Shallow embedding of the Post-Automation AI subsystem:
model registry (`model_config.py`), health tracker (`health_tracker.py`),
generation orchestrator (`ai_client.py`) and retry engine
(`retry_handler.py` / `failure_tracker.py`), with theorems checking the
specification's claims about them.

Layout: all definitions first (registry and health tracker, the sort
model, the orchestrator, the retry engine, and the concrete states and
operations used by witnesses and counterexamples), then the lemmas and
the per-claim theorems.
-/

/-- A backend descriptor, one entry of `AI_MODELS` in `model_config.py`. -/
structure ModelInfo where
  id : String
  provider : String
  tier : Nat
  speed : String
  creativity : Nat
  instruction_following : Nat
  context_length : Nat
  multimodal : Bool
  best_for : List String
  notes : String
deriving DecidableEq

/-- The static model registry `AI_MODELS` from `model_config.py`,
in insertion order. -/
def AI_MODELS : List (String × ModelInfo) :=
  [ ("gemini-2.0-flash",
     { id := "google/gemini-2.0-flash-exp:free", provider := "openrouter",
       tier := 1, speed := "very_fast", creativity := 9,
       instruction_following := 9, context_length := 32768,
       multimodal := true,
       best_for := ["creative_writing", "sentiment_analysis", "image_analysis"],
       notes := "Latest Google model, excellent at social media posts" }),
    ("llama-3.3-70b",
     { id := "meta-llama/llama-3.3-70b-instruct:free", provider := "openrouter",
       tier := 1, speed := "fast", creativity := 8,
       instruction_following := 10, context_length := 131072,
       multimodal := false,
       best_for := ["instruction_following", "consistent_output", "long_context"],
       notes := "70B model, very reliable, great at following prompts precisely" }),
    ("qwen-2.5-72b",
     { id := "qwen/qwen-2.5-72b-instruct:free", provider := "openrouter",
       tier := 1, speed := "fast", creativity := 8,
       instruction_following := 9, context_length := 32768,
       multimodal := false,
       best_for := ["reasoning", "multilingual", "quality_check"],
       notes := "72B model, excellent for Japanese/English content" }),
    ("llama-3.1-8b",
     { id := "meta-llama/llama-3.1-8b-instruct", provider := "openrouter",
       tier := 2, speed := "fast", creativity := 7,
       instruction_following := 8, context_length := 131072,
       multimodal := false,
       best_for := ["reasoning", "analysis", "quick_tasks"],
       notes := "Fast 8B model, good backup for reasoning tasks" }),
    ("hermes-3-405b",
     { id := "nousresearch/hermes-3-llama-3.1-405b:free", provider := "openrouter",
       tier := 2, speed := "slow", creativity := 9,
       instruction_following := 8, context_length := 131072,
       multimodal := false,
       best_for := ["creative_writing", "roleplay"],
       notes := "405B model! Very creative but slow" }),
    ("mistral-nemo",
     { id := "mistralai/mistral-nemo:free", provider := "openrouter",
       tier := 3, speed := "very_fast", creativity := 7,
       instruction_following := 7, context_length := 131072,
       multimodal := false,
       best_for := ["quick_tasks", "speed"],
       notes := "Fast and efficient, good for simple tasks" }),
    ("gemini-direct",
     { id := "gemini-2.0-flash-exp", provider := "gemini_direct",
       tier := 1, speed := "very_fast", creativity := 9,
       instruction_following := 9, context_length := 1000000,
       multimodal := true,
       best_for := ["creative_writing", "long_context"],
       notes := "Direct Gemini API - separate quota from OpenRouter!" }) ]

/-- Dict lookup `AI_MODELS[model_name]` (names in the registry are unique). -/
def lookupInfo (model_name : String) : ModelInfo :=
  match (AI_MODELS.find? (fun p => p.1 = model_name)) with
  | some p => p.2
  | none =>
    { id := "", provider := "", tier := 0, speed := "", creativity := 0,
      instruction_following := 0, context_length := 0, multimodal := false,
      best_for := [], notes := "" }

/-- One per-model record of `ModelHealthTracker.health_status`
(`health_tracker.py`).  Timestamps carry no information used by any
operation, so `last_success`/`last_failure` only record whether they were
ever set. -/
structure ModelStatus where
  is_healthy : Option Bool
  last_success : Option Unit
  last_failure : Option Unit
  consecutive_failures : Nat
  total_calls : Nat
  total_successes : Nat
  total_failures : Nat
  avg_response_time : ℚ
deriving DecidableEq

/-- The health tracker state: the `health_status` mapping. -/
def Tracker : Type := String → ModelStatus

/-- The record every model starts with (`ModelHealthTracker.__init__`). -/
def initStatus : ModelStatus :=
  { is_healthy := none, last_success := none, last_failure := none,
    consecutive_failures := 0, total_calls := 0, total_successes := 0,
    total_failures := 0, avg_response_time := 0 }

/-- Fresh tracker: every model maps to `initStatus`. -/
def initTracker : Tracker := fun _ => initStatus

/-- Pointwise update of one model's record. -/
def setStatus (tracker : Tracker) (model_name : String) (st : ModelStatus) :
    Tracker :=
  fun n => if n = model_name then st else tracker n

/-- `ModelHealthTracker.mark_success` from `health_tracker.py`. -/
def mark_success (tracker : Tracker) (model_name : String)
    (response_time : ℚ) : Tracker :=
  let status := tracker model_name
  let total := status.total_successes + 1
  let current_avg := status.avg_response_time
  setStatus tracker model_name
    { status with
      is_healthy := some true
      last_success := some ()
      consecutive_failures := 0
      total_calls := status.total_calls + 1
      total_successes := total
      avg_response_time := (current_avg * ((total : ℚ) - 1) + response_time) / (total : ℚ) }

/-- `ModelHealthTracker.mark_failure` from `health_tracker.py`
(the `error` argument is informational only and is not stored). -/
def mark_failure (tracker : Tracker) (model_name : String)
    (error : String) : Tracker :=
  let status := tracker model_name
  let _ := error
  setStatus tracker model_name
    { status with
      is_healthy := some false
      last_failure := some ()
      consecutive_failures := status.consecutive_failures + 1
      total_calls := status.total_calls + 1
      total_failures := status.total_failures + 1 }

/-- `ModelHealthTracker.reset_model` from `health_tracker.py`. -/
def reset_model (tracker : Tracker) (model_name : String) : Tracker :=
  let status := tracker model_name
  setStatus tracker model_name
    { status with consecutive_failures := 0, is_healthy := none }

/-!  Python's `list.sort(key=..., reverse=True)` is a stable sort that
puts larger keys first and keeps elements with equal keys in their
original order.  `sortDesc gt` models it, given the strict "comes
strictly before" test `gt`: each element is inserted after every already
placed element it does not strictly beat.  -/

/-- Insert `x` after all elements it does not strictly beat under `gt`. -/
def insertDesc (gt : α → α → Bool) (x : α) : List α → List α
  | [] => [x]
  | y :: ys => if gt x y then x :: y :: ys else y :: insertDesc gt x ys

/-- Stable descending sort by the strict comparison `gt`. -/
def sortDesc (gt : α → α → Bool) (l : List α) : List α :=
  l.foldl (fun acc x => insertDesc gt x acc) []

/-- Strict descending comparison of Python tuples
`(success_rate, -tier, avg_response_time)` of rationals. -/
def lexGt (a b : ℚ × ℚ × ℚ) : Bool :=
  b.1 < a.1 || (a.1 == b.1 &&
    (b.2.1 < a.2.1 || (a.2.1 == b.2.1 && b.2.2 < a.2.2)))

/-- The sort key of `get_healthy_models`:
`(successes / max(calls, 1), -tier, avg_response_time)`. -/
def healthKey (tracker : Tracker) (x : String) : ℚ × ℚ × ℚ :=
  (((tracker x).total_successes : ℚ) / (max (tracker x).total_calls 1 : Nat),
   -((lookupInfo x).tier : ℚ),
   (tracker x).avg_response_time)

/-- The filtering loop of `ModelHealthTracker.get_healthy_models`: iterate
the tracker's keys (the registry names), skipping records with
`is_healthy == False`, records with `consecutive_failures >= 3`, and —
when the `tier` argument is truthy — models of a different tier. -/
def healthyFilter (tracker : Tracker) (tier : Option Nat) : List String :=
  (AI_MODELS.map Prod.fst).filter (fun name =>
    !((tracker name).is_healthy == some false)
    && !(3 ≤ (tracker name).consecutive_failures)
    && !(match tier with
         | none => false
         | some t => !(t == 0) && !((lookupInfo name).tier == t)))

/-- `ModelHealthTracker.get_healthy_models` from `health_tracker.py`:
filter, then `healthy.sort(key=..., reverse=True)`. -/
def get_healthy_models (tracker : Tracker) (tier : Option Nat) :
    List String :=
  sortDesc (fun x y => lexGt (healthKey tracker x) (healthKey tracker y))
    (healthyFilter tracker tier)

/-- The speed bonus `speed_map.get(speed, 0)` of `_get_suitable_models`. -/
def speedBonus (speed : String) : ℚ :=
  if speed = "very_fast" then 5
  else if speed = "fast" then 3
  else if speed = "medium" then 1
  else if speed = "slow" then 0
  else 0

/-- The exclusion test opening the `_get_suitable_models` loop: skip a
model when `is_healthy == False` and `consecutive_failures >= 2`. -/
def excludedFromRank (st : ModelStatus) : Bool :=
  st.is_healthy == some false && 2 ≤ st.consecutive_failures

/-- The score computed for one model in `_get_suitable_models`
(`ai_client.py`). -/
def suitabilityScore (info : ModelInfo) (status : ModelStatus)
    (task_type : String) : ℚ :=
  let s1 : ℚ := if task_type ∈ info.best_for then 30 else 0
  let s2 : ℚ := s1 + ((4 : ℚ) - (info.tier : ℚ)) * 20
  let s3 : ℚ := s2 +
    (match status.is_healthy with
     | some true => 25
     | none => 10
     | some false => 0)
  let s4 : ℚ := s3 +
    (if 0 < status.total_calls then
       ((status.total_successes : ℚ) / (status.total_calls : ℚ)) * 15
     else 0)
  s4 + speedBonus info.speed

/-- `MultiAIClient._get_suitable_models` from `ai_client.py`: score every
non-excluded registry model, sort by score descending (stable), and
return the names. -/
def get_suitable_models (tracker : Tracker) (task_type : String) :
    List String :=
  let scored_models := AI_MODELS.filterMap (fun p =>
    if excludedFromRank (tracker p.1) then none
    else some (p.1, suitabilityScore p.2 (tracker p.1) task_type))
  (sortDesc (fun x y => decide (y.2 < x.2)) scored_models).map Prod.fst

/-!
Shallow embedding of the Post-Automation AI subsystem:
model registry (`model_config.py`), health tracker (`health_tracker.py`),
generation orchestrator (`ai_client.py`) and retry engine
(`retry_handler.py` / `failure_tracker.py`), with theorems checking the
specification's claims about them.
-/

/-- Outcome of one `_call_single_model` invocation. -/
inductive CallResult where
  | err (msg : String)
  | ok (result : Option String) (response_time : ℚ)
deriving DecidableEq

/-- The usability test `result and len(result) > 50` of
`generate_with_fallback` ("Minimum viable response"). -/
def usableResult : Option String → Bool
  | none => false
  | some s => !s.isEmpty && 50 < s.length

/-- The body of one attempt in `generate_with_fallback`: a raised error
records a failure; a usable text records a success and is returned; a
too-short (or absent) text is merely retried, with no tracker update. -/
def attemptStep (tracker : Tracker) (model_name : String)
    (out : CallResult) : Option String × Tracker :=
  match out with
  | .err e => (none, mark_failure tracker model_name e)
  | .ok result response_time =>
    if usableResult result then (result, mark_success tracker model_name response_time)
    else (none, tracker)

/-- The inner `for attempt in range(1, max_attempts_per_model + 1)` loop
of `generate_with_fallback`, over the remaining attempt numbers.  Also
returns the trace of provider calls made, each with its outcome. -/
def tryModelGo (oracle : String → Nat → CallResult) (model_name : String)
    (tracker : Tracker) :
    List Nat → Option String × Tracker × List (String × CallResult)
  | [] => (none, tracker, [])
  | a :: rest =>
    let out := oracle model_name a
    let (res, tr) := attemptStep tracker model_name out
    match res with
    | some text => (some text, tr, [(model_name, out)])
    | none =>
      let (r, tr2, trace) := tryModelGo oracle model_name tr rest
      (r, tr2, (model_name, out) :: trace)

/-- The outer `for model_name in suitable_models` loop of
`generate_with_fallback`. -/
def generateGo (oracle : String → Nat → CallResult)
    (max_attempts_per_model : Nat) (tracker : Tracker) :
    List String → Option (String × String) × Tracker × List (String × CallResult)
  | [] => (none, tracker, [])
  | m :: ms =>
    let (res, tr, trace) :=
      tryModelGo oracle m tracker (List.range' 1 max_attempts_per_model)
    match res with
    | some text => (some (text, m), tr, trace)
    | none =>
      let (r, tr2, trace2) := generateGo oracle max_attempts_per_model tr ms
      (r, tr2, trace ++ trace2)

/-- `MultiAIClient.generate_with_fallback` from `ai_client.py`: rank the
models for the task, then try each in order, at most
`max_attempts_per_model` times, returning the first usable text with the
winning model's name.  Returns the final tracker and the full trace of
provider calls alongside the result. -/
def generate_with_fallback (oracle : String → Nat → CallResult)
    (task_type : String)
    (max_attempts_per_model : Nat) (tracker : Tracker) :
    Option (String × String) × Tracker × List (String × CallResult) :=
  let suitable_models := get_suitable_models tracker task_type
  generateGo oracle max_attempts_per_model tracker suitable_models

/-- Whether one provider-call outcome gets recorded in the health
tracker by `generate_with_fallback`: raised errors and usable responses
are recorded, too-short responses are not. -/
def recordsCall : CallResult → Bool
  | .err _ => true
  | .ok result _ => usableResult result

/-- Number of provider calls on backend `m` in a trace whose outcome was
recorded. -/
def countRecorded (m : String) (trace : List (String × CallResult)) : Nat :=
  (trace.filter (fun p => p.1 == m && recordsCall p.2)).length

/-!  The retry/backoff engine of `retry_handler.py` and the persisted
failure state of `failure_tracker.py`.  File I/O (`_save_data`) and the
webhook notifications are external side effects with no bearing on the
modelled state; `random.uniform` jitter is added to the sleep on top of
the base delay and is not part of the recorded base delays. -/

/-- Retry constants from `config.py`. -/
def MAX_RETRY_ATTEMPTS : Nat := 5

/-- `RETRY_BASE_DELAY` from `config.py` (seconds). -/
def RETRY_BASE_DELAY : Nat := 1

/-- `RETRY_MAX_DELAY` from `config.py` (seconds). -/
def RETRY_MAX_DELAY : Nat := 32

/-- One entry of the persisted failure log (`FailureTracker.log_failure`).
The timestamp carries no modelled information. -/
structure LogEntry where
  entry_type : String
  details : String
  retry_count : Nat
deriving DecidableEq

/-- The persisted failure data (`FailureTracker.data`). -/
structure FTData where
  total_failures : Nat
  failure_log : List LogEntry
deriving DecidableEq

/-- `FailureTracker._create_empty_data`. -/
def emptyFTData : FTData := { total_failures := 0, failure_log := [] }

/-- `FailureTracker.increment_failure_counter`. -/
def increment_failure_counter (ft : FTData) : FTData :=
  { ft with total_failures := ft.total_failures + 1 }

/-- `FailureTracker.log_failure`: append an entry and keep only the last
100 entries. -/
def log_failure (ft : FTData) (error_type : String) (details : String)
    (retry_count : Nat) : FTData :=
  let log := ft.failure_log ++ [⟨error_type, details, retry_count⟩]
  { ft with
    failure_log := if 100 < log.length then log.drop (log.length - 100) else log }

/-- `FailureTracker.calculate_retry_delay`:
`min(RETRY_BASE_DELAY * 2 ** (attempt - 1), RETRY_MAX_DELAY)`. -/
def calculate_retry_delay (attempt : Nat) : Nat :=
  min (RETRY_BASE_DELAY * 2 ^ (attempt - 1)) RETRY_MAX_DELAY

/-- Result of a `retry_with_backoff` run: the returned value, the final
persisted failure data, the base delays of the backoff sleeps performed,
and the attempt numbers at which the operation was invoked. -/
structure RetryResult (α : Type) where
  result : Option α
  ft : FTData
  sleeps : List Nat
  attempts : List Nat
deriving DecidableEq

/-- The `for attempt in range(1, max_retries + 1)` loop of
`retry_with_backoff`.  An operation outcome of `none` covers both a
raised exception and a returned `None` (which the code turns into an
exception itself). -/
def retryGo (op : Nat → Option α) (max_retries : Nat) (ft : FTData) :
    List Nat → RetryResult α
  | [] => ⟨none, ft, [], []⟩
  | attempt :: rest =>
    match op attempt with
    | some r => ⟨some r, ft, [], [attempt]⟩
    | none =>
      let ft2 := log_failure ft "retry_attempt"
        ("Attempt " ++ toString attempt) attempt
      if attempt < max_retries then
        let delay := calculate_retry_delay attempt
        let r := retryGo op max_retries ft2 rest
        ⟨r.result, r.ft, delay :: r.sleeps, attempt :: r.attempts⟩
      else
        ⟨none, increment_failure_counter ft2, [], [attempt]⟩

/-- `retry_with_backoff` from `retry_handler.py` (default
`max_retries = MAX_RETRY_ATTEMPTS = 5`). -/
def retry_with_backoff (op : Nat → Option α)
    (max_retries : Nat) (ft : FTData) : RetryResult α :=
  retryGo op max_retries ft (List.range' 1 max_retries)

/-!  Health-tracker operation sequences, the claim-worded ranking,
and the concrete states and operations used by witnesses and
counterexamples. -/

/-- One health-tracker call on a fixed backend. -/
inductive HOp where
  | success (response_time : ℚ)
  | failure (error : String)

/-- Apply one `HOp` to the tracker. -/
def healthStep (tracker : Tracker) (m : String) : HOp → Tracker
  | .success rt => mark_success tracker m rt
  | .failure e => mark_failure tracker m e

/-- Run a sequence of `mark_success` / `mark_failure` calls on backend `m`. -/
def applyHOps (m : String) (ops : List HOp) (tracker : Tracker) : Tracker :=
  ops.foldl (fun t op => healthStep t m op) tracker

/-- Whether an operation is a failure. -/
def isFailOp : HOp → Bool
  | .success _ => false
  | .failure _ => true

/-- Number of failures recorded since the most recent success (or since
the start, if no success ever happened). -/
def failuresSinceLastSuccess (ops : List HOp) : Nat :=
  (ops.reverse.takeWhile isFailOp).length

/-- One health-tracker operation on a fixed backend, `reset_model`
included. -/
inductive HOp3 where
  | success (response_time : ℚ)
  | failure (error : String)
  | reset

/-- Apply one `HOp3` to the tracker. -/
def healthStep3 (tracker : Tracker) (m : String) : HOp3 → Tracker
  | .success rt => mark_success tracker m rt
  | .failure e => mark_failure tracker m e
  | .reset => reset_model tracker m

/-- Run a sequence of tracker operations on backend `m`. -/
def applyHOps3 (m : String) (ops : List HOp3) (tracker : Tracker) : Tracker :=
  ops.foldl (fun t op => healthStep3 t m op) tracker

/-- The counter invariant of claim C10, for one record. -/
def counterInv (st : ModelStatus) : Prop :=
  st.total_calls = st.total_successes + st.total_failures

/-- The score formula as the claim words it: affinity bonus, tier bonus,
health bonus, `(successes / max(calls, 1)) * 15`, speed bonus. -/
def claimScore (info : ModelInfo) (status : ModelStatus)
    (task_type : String) : ℚ :=
  (if task_type ∈ info.best_for then 30 else 0)
    + ((4 : ℚ) - (info.tier : ℚ)) * 20
    + (match status.is_healthy with
       | some true => 25
       | none => 10
       | some false => 0)
    + ((status.total_successes : ℚ) / (max status.total_calls 1 : Nat)) * 15
    + speedBonus info.speed

/-- The ranking as the claim words it: score every non-excluded backend
with `claimScore`, sort by score descending with ties broken by registry
insertion order (stable sort), return the names. -/
def claimRank (tracker : Tracker) (task_type : String) : List String :=
  let scored_models := AI_MODELS.filterMap (fun p =>
    if excludedFromRank (tracker p.1) then none
    else some (p.1, claimScore p.2 (tracker p.1) task_type))
  (sortDesc (fun x y => decide (y.2 < x.2)) scored_models).map Prod.fst

def shortOracle : String → Nat → CallResult := fun _ _ => .ok (some "short") 1

def fiftyStr : String := "aaaaaaaaaaaaaaaaaaaaaaaaaaaaaaaaaaaaaaaaaaaaaaaaaa"

def tracker3 : Tracker :=
  setStatus (setStatus
    (fun _ =>
      { initStatus with
        is_healthy := some false
        last_failure := some ()
        consecutive_failures := 1
        total_calls := 1
        total_failures := 1 })
    "gemini-2.0-flash"
    { initStatus with
      is_healthy := some true
      last_success := some ()
      total_calls := 1
      total_successes := 1
      avg_response_time := 1 })
    "llama-3.3-70b"
    { initStatus with
      is_healthy := some true
      last_success := some ()
      total_calls := 1
      total_successes := 1
      avg_response_time := 2 }

/-- A tracker with `gemini-2.0-flash` unhealthy after a single failure
and every other model untested. -/
def tracker4 : Tracker :=
  setStatus initTracker "gemini-2.0-flash"
    { initStatus with
      is_healthy := some false
      last_failure := some ()
      consecutive_failures := 1
      total_calls := 1
      total_failures := 1 }

/-- A tracker with `gemini-2.0-flash` unhealthy after two consecutive
failures. -/
def tracker5 : Tracker :=
  setStatus initTracker "gemini-2.0-flash"
    { initStatus with
      is_healthy := some false
      last_failure := some ()
      consecutive_failures := 2
      total_calls := 2
      total_failures := 2 }

/-- The always-failing operation used as the C7 witness. -/
def alwaysFailOp : Nat → Option Nat := fun _ => none

/-- The operation failing twice then succeeding, used as the C8 witness. -/
def failTwiceOp : Nat → Option Nat := fun i => if i = 3 then some 42 else none

/-!  Helper lemmas about the health tracker's transitions and the sort. -/

theorem setStatus_apply (tracker : Tracker) (m : String) (st : ModelStatus)
    (n : String) : setStatus tracker m st n = if n = m then st else tracker n :=
  rfl

theorem mark_success_apply_ne (tracker : Tracker) (m : String) (rt : ℚ)
    (n : String) (h : n ≠ m) : (mark_success tracker m rt) n = tracker n := by
  simp [mark_success, setStatus, h]

theorem mark_failure_apply_ne (tracker : Tracker) (m : String) (e : String)
    (n : String) (h : n ≠ m) : (mark_failure tracker m e) n = tracker n := by
  simp [mark_failure, setStatus, h]

theorem mark_success_total_calls (tracker : Tracker) (m : String) (rt : ℚ)
    (n : String) :
    ((mark_success tracker m rt) n).total_calls
      = if n = m then (tracker m).total_calls + 1 else (tracker n).total_calls := by
  by_cases h : n = m <;> simp [mark_success, setStatus, h]

theorem mark_failure_total_calls (tracker : Tracker) (m : String) (e : String)
    (n : String) :
    ((mark_failure tracker m e) n).total_calls
      = if n = m then (tracker m).total_calls + 1 else (tracker n).total_calls := by
  by_cases h : n = m <;> simp [mark_failure, setStatus, h]

theorem mem_insertDesc (gt : α → α → Bool) (x a : α) :
    ∀ (l : List α), a ∈ insertDesc gt x l ↔ a = x ∨ a ∈ l := by
  intro l
  induction l with
  | nil => simp [insertDesc]
  | cons y ys ih =>
    simp only [insertDesc]
    split
    · simp
    · simp [ih]
      tauto

theorem mem_sortDesc (gt : α → α → Bool) (a : α) (l : List α) :
    a ∈ sortDesc gt l ↔ a ∈ l := by
  have aux : ∀ (l : List α) (acc : List α),
      a ∈ l.foldl (fun acc x => insertDesc gt x acc) acc ↔ a ∈ acc ∨ a ∈ l := by
    intro l
    induction l with
    | nil => simp
    | cons x xs ih =>
      intro acc
      rw [List.foldl_cons, ih, mem_insertDesc]
      simp
      tauto
  rw [sortDesc, aux]
  simp

theorem countRecorded_cons (m : String) (x : String × CallResult)
    (trace : List (String × CallResult)) :
    countRecorded m (x :: trace)
      = (if x.1 = m ∧ recordsCall x.2 then 1 else 0) + countRecorded m trace := by
  rw [countRecorded, countRecorded, List.filter_cons]
  split
  · rename_i h
    rw [Bool.and_eq_true, beq_iff_eq] at h
    rw [if_pos (by simpa using h)]
    simp [Nat.add_comm]
  · rename_i h
    rw [Bool.and_eq_true] at h
    rw [if_neg (by simpa using h)]
    simp

theorem countRecorded_append (m : String)
    (t1 t2 : List (String × CallResult)) :
    countRecorded m (t1 ++ t2) = countRecorded m t1 + countRecorded m t2 := by
  simp [countRecorded, List.filter_append]

theorem usableResult_some_iff (s : String) :
    usableResult (some s) = true ↔ 50 < s.length := by
  rw [usableResult, Bool.and_eq_true]
  constructor
  · intro h
    exact of_decide_eq_true h.2
  · intro h
    refine ⟨?_, decide_eq_true h⟩
    rw [Bool.not_eq_true']
    cases he : s.isEmpty
    · rfl
    · have hs : s = "" := (String.isEmpty_iff s).mp he
      subst hs
      simp at h

theorem applyHOps_append (m : String) (l : List HOp) (op : HOp)
    (tracker : Tracker) :
    applyHOps m (l ++ [op]) tracker = healthStep (applyHOps m l tracker) m op := by
  simp [applyHOps, List.foldl_append]

theorem counterInv_preserved (m : String) (ops : List HOp3) :
    ∀ (tracker : Tracker), (∀ n, counterInv (tracker n)) →
      ∀ n, counterInv ((applyHOps3 m ops tracker) n) := by
  induction ops with
  | nil => intro tracker h n; simpa [applyHOps3] using h n
  | cons op rest ih =>
    intro tracker h n
    rw [applyHOps3, List.foldl_cons]
    refine ih (healthStep3 tracker m op) ?_ n
    intro n'
    by_cases hn : n' = m
    · subst hn
      cases op with
      | success rt =>
        have := h n'
        simp [healthStep3, mark_success, setStatus, counterInv] at this ⊢
        omega
      | failure e =>
        have := h n'
        simp [healthStep3, mark_failure, setStatus, counterInv] at this ⊢
        omega
      | reset =>
        have := h n'
        simp [healthStep3, reset_model, setStatus, counterInv] at this ⊢
        omega
    · cases op with
      | success rt => simpa [healthStep3, mark_success, setStatus, hn] using h n'
      | failure e => simpa [healthStep3, mark_failure, setStatus, hn] using h n'
      | reset => simpa [healthStep3, reset_model, setStatus, hn] using h n'

theorem suitabilityScore_eq_claimScore (info : ModelInfo)
    (status : ModelStatus) (task_type : String)
    (h : status.total_successes ≤ status.total_calls) :
    suitabilityScore info status task_type = claimScore info status task_type := by
  rw [suitabilityScore, claimScore]
  by_cases hc : 0 < status.total_calls
  · have hmax : max status.total_calls 1 = status.total_calls :=
      Nat.max_eq_left hc
    rw [if_pos hc, hmax]
  · have hc0 : status.total_calls = 0 := by omega
    have hs0 : status.total_successes = 0 := by omega
    rw [if_neg hc, hc0, hs0]
    norm_num

theorem tryModelGo_calls (oracle : String → Nat → CallResult) (m : String) :
    ∀ (attempts : List Nat) (tracker : Tracker) (n : String),
      (((tryModelGo oracle m tracker attempts).2.1) n).total_calls
        = (tracker n).total_calls
          + countRecorded n (tryModelGo oracle m tracker attempts).2.2 := by
  intro attempts
  induction attempts with
  | nil => intro tracker n; simp [tryModelGo, countRecorded]
  | cons a rest ih =>
    intro tracker n
    cases hout : oracle m a with
    | err e =>
      rcases htr : tryModelGo oracle m (mark_failure tracker m e) rest
        with ⟨r, tr2, trace⟩
      have hih := ih (mark_failure tracker m e) n
      rw [htr] at hih
      simp only [tryModelGo, hout, attemptStep, htr]
      rw [countRecorded_cons]
      simp only at hih ⊢
      rw [hih, mark_failure_total_calls]
      by_cases hnm : n = m
      · subst hnm
        rw [if_pos rfl, if_pos ⟨rfl, rfl⟩]
        omega
      · rw [if_neg hnm, if_neg (fun hc => hnm hc.1.symm)]
        omega
    | ok result t =>
      cases husable : usableResult result with
      | true =>
        cases result with
        | none => simp [usableResult] at husable
        | some s =>
          simp only [tryModelGo, hout, attemptStep, husable, if_true]
          rw [countRecorded_cons, mark_success_total_calls]
          by_cases hnm : n = m
          · subst hnm
            rw [if_pos rfl, if_pos ⟨rfl, by simp [recordsCall, husable]⟩]
            simp [countRecorded]
          · rw [if_neg hnm, if_neg (fun hc => hnm hc.1.symm)]
            simp [countRecorded]
      | false =>
        rcases htr : tryModelGo oracle m tracker rest with ⟨r, tr2, trace⟩
        have hih := ih tracker n
        rw [htr] at hih
        simp only [tryModelGo, hout, attemptStep, husable, Bool.false_eq_true,
          if_false, htr]
        rw [countRecorded_cons]
        have hcond : ¬((m, CallResult.ok result t).1 = n
            ∧ recordsCall (m, CallResult.ok result t).2 = true) := by
          rintro ⟨-, hrc⟩
          simp [recordsCall, husable] at hrc
        rw [if_neg ?_]
        · simp only at hih ⊢
          rw [hih]
          omega
        · exact fun hc => hcond ⟨hc.1, hc.2⟩

theorem generateGo_calls (oracle : String → Nat → CallResult)
    (max_attempts_per_model : Nat) :
    ∀ (ms : List String) (tracker : Tracker) (n : String),
      (((generateGo oracle max_attempts_per_model tracker ms).2.1) n).total_calls
        = (tracker n).total_calls
          + countRecorded n (generateGo oracle max_attempts_per_model tracker ms).2.2 := by
  intro ms
  induction ms with
  | nil => intro tracker n; simp [generateGo, countRecorded]
  | cons m ms ih =>
    intro tracker n
    have hcalls := tryModelGo_calls oracle m
      (List.range' 1 max_attempts_per_model) tracker n
    rcases htry : tryModelGo oracle m tracker (List.range' 1 max_attempts_per_model)
      with ⟨res, tr, trace⟩
    rw [htry] at hcalls
    cases res with
    | some text =>
      simp only [generateGo, htry]
      simpa using hcalls
    | none =>
      have hgen := ih tr n
      rcases hg : generateGo oracle max_attempts_per_model tr ms
        with ⟨r2, tr2, trace2⟩
      rw [hg] at hgen
      simp only [generateGo, htry, hg]
      rw [countRecorded_append]
      simp only at hcalls hgen
      omega

theorem suitable_init :
    get_suitable_models initTracker "creative_writing"
      = ["gemini-2.0-flash", "gemini-direct", "hermes-3-405b", "llama-3.3-70b",
         "qwen-2.5-72b", "llama-3.1-8b", "mistral-nemo"] := by
  norm_num [get_suitable_models, AI_MODELS, excludedFromRank, suitabilityScore,
    speedBonus, initTracker, initStatus, sortDesc,
    List.filterMap_cons, List.foldl]
  simp only [String.reduceEq, or_self, or_false, false_or, if_false, if_true,
    ite_false, ite_true]
  norm_num [insertDesc]

/-!  Claims C1 and C2: the orchestrator attempt loop. -/

theorem C1_counterexample :
    ((generate_with_fallback shortOracle "creative_writing" 2 initTracker).2.2.filter
        (fun p => p.1 == "gemini-2.0-flash")).length = 2 ∧
    (((generate_with_fallback shortOracle "creative_writing" 2 initTracker).2.1)
        "gemini-2.0-flash").total_calls = 0 := by
  have hu : usableResult (some "short") = false := by decide
  rw [generate_with_fallback]
  rw [suitable_init]
  simp [generateGo, tryModelGo, attemptStep, shortOracle, hu, List.range',
    initTracker, initStatus]

/-- **C1** (amended).  After `generate_with_fallback` returns, each
backend's call counter counts exactly the attempts on it that raised an
error or returned a usable-length text; an attempt that returns a
too-short response without raising leaves the Health Tracker unchanged
and is not counted. -/
theorem C1_generate_calls_counted (oracle : String → Nat → CallResult)
    (task_type : String) (max_attempts_per_model : Nat) (tracker : Tracker)
    (m : String) :
    (((generate_with_fallback oracle task_type max_attempts_per_model
          tracker).2.1) m).total_calls
      = (tracker m).total_calls
        + countRecorded m (generate_with_fallback oracle task_type
            max_attempts_per_model tracker).2.2 := by
  rw [generate_with_fallback]
  exact generateGo_calls oracle max_attempts_per_model
    (get_suitable_models tracker task_type) tracker m

theorem C2_counterexample :
    fiftyStr.length = 50 ∧
    (generate_with_fallback (fun _ _ => .ok (some fiftyStr) 1)
        "creative_writing" 2 initTracker).1 = none := by
  have hu : usableResult (some fiftyStr) = false := by decide
  refine ⟨by decide, ?_⟩
  rw [generate_with_fallback]
  rw [suitable_init]
  simp [generateGo, tryModelGo, attemptStep, hu, List.range']

theorem C2_usable_threshold (tracker : Tracker) (m : String) (s : String)
    (t : ℚ) :
    (attemptStep tracker m (.ok (some s) t)
        = (some s, mark_success tracker m t) ↔ 50 < s.length) ∧
    (attemptStep tracker m (.ok (some s) t) = (none, tracker)
        ↔ s.length ≤ 50) := by
  cases husable : usableResult (some s) with
  | true =>
    have h50 : 50 < s.length := (usableResult_some_iff s).mp husable
    rw [attemptStep, if_pos husable]
    constructor
    · exact iff_of_true rfl h50
    · refine iff_of_false ?_ (by omega)
      intro h
      exact Option.noConfusion (congrArg Prod.fst h)
  | false =>
    have h50 : ¬ 50 < s.length := by
      intro h
      rw [(usableResult_some_iff s).mpr h] at husable
      exact Bool.noConfusion husable
    rw [attemptStep, if_neg (by rw [husable]; exact Bool.false_ne_true)]
    constructor
    · refine iff_of_false ?_ h50
      intro h
      exact Option.noConfusion (congrArg Prod.fst h)
    · exact iff_of_true rfl (by omega)

/-!  Claim C3: the `get_healthy_models` ordering. -/

theorem C3_slower_first_at_failing_input :
    (tracker3 "gemini-2.0-flash").avg_response_time = 1 ∧
    (tracker3 "llama-3.3-70b").avg_response_time = 2 ∧
    get_healthy_models tracker3 none = ["llama-3.3-70b", "gemini-2.0-flash"] := by
  refine ⟨by simp [tracker3, setStatus], by simp [tracker3, setStatus], ?_⟩
  simp [get_healthy_models, healthyFilter, AI_MODELS, tracker3, setStatus,
    initStatus, List.filter, lookupInfo, List.find?, sortDesc, insertDesc,
    healthKey, lexGt]

/-!  Claim C4: which backends `get_healthy_models` keeps. -/

/-- Counterexample to **C4**: a backend that is unhealthy with only one
consecutive failure is nonetheless dropped by `get_healthy_models`
(the code skips every record with `is_healthy == False`, regardless of
its consecutive-failure count). -/
theorem C4_counterexample :
    (tracker4 "gemini-2.0-flash").is_healthy = some false ∧
    (tracker4 "gemini-2.0-flash").consecutive_failures = 1 ∧
    "gemini-2.0-flash" ∉ get_healthy_models tracker4 none := by
  refine ⟨by decide, by decide, ?_⟩
  intro hmem
  rw [get_healthy_models, mem_sortDesc, healthyFilter, List.mem_filter] at hmem
  obtain ⟨-, hcond⟩ := hmem
  rw [Bool.and_eq_true, Bool.and_eq_true] at hcond
  obtain ⟨⟨h1, -⟩, -⟩ := hcond
  simp [tracker4, setStatus] at h1

/-- **C4** (amended).  `get_healthy_models` keeps exactly the backends
that are not unhealthy (being unhealthy excludes at any
consecutive-failure count, so an unhealthy backend with 1 or 2
consecutive failures is excluded as well), have fewer than 3 consecutive
failures, and pass the truthy tier filter. -/
theorem C4_healthy_models_membership (tracker : Tracker)
    (tier : Option Nat) (m : String) :
    m ∈ get_healthy_models tracker tier ↔
      m ∈ AI_MODELS.map Prod.fst ∧
      (tracker m).is_healthy ≠ some false ∧
      (tracker m).consecutive_failures < 3 ∧
      (∀ t, tier = some t → t = 0 ∨ (lookupInfo m).tier = t) := by
  rw [get_healthy_models, mem_sortDesc, healthyFilter, List.mem_filter]
  constructor
  · rintro ⟨hmem, hcond⟩
    rw [Bool.and_eq_true, Bool.and_eq_true] at hcond
    obtain ⟨⟨h1, h2⟩, h3⟩ := hcond
    refine ⟨hmem, by simpa using h1, ?_, ?_⟩
    · have h2' : ¬ 3 ≤ (tracker m).consecutive_failures := by simpa using h2
      omega
    · intro t ht
      subst ht
      by_cases h0 : t = 0
      · exact Or.inl h0
      · right
        by_contra hne
        simp [h0, hne] at h3
  · rintro ⟨hmem, h1, h2, h4⟩
    refine ⟨hmem, ?_⟩
    rw [Bool.and_eq_true, Bool.and_eq_true]
    refine ⟨⟨by simpa using h1, by simp; omega⟩, ?_⟩
    cases tier with
    | none => rfl
    | some t =>
      rcases h4 t rfl with h0 | hti
      · simp [h0]
      · by_cases h0 : t = 0
        · simp [h0]
        · simp [hti]

/-!  Claim C5: exclusion from `_get_suitable_models`. -/

/-- **C5** (confirmed).  A backend that is unhealthy with at least 2
consecutive failures never appears in the candidate list produced by
`_get_suitable_models`. -/
theorem C5_unhealthy_excluded_from_rank (tracker : Tracker)
    (task_type : String) (m : String)
    (h1 : (tracker m).is_healthy = some false)
    (h2 : 2 ≤ (tracker m).consecutive_failures) :
    m ∉ get_suitable_models tracker task_type := by
  intro hmem
  rw [get_suitable_models, List.mem_map] at hmem
  obtain ⟨pr, hpr, hfst⟩ := hmem
  rw [mem_sortDesc, List.mem_filterMap] at hpr
  obtain ⟨p, -, heq⟩ := hpr
  by_cases hex : excludedFromRank (tracker p.1)
  · simp [hex] at heq
  · rw [if_neg hex] at heq
    have hpair := Option.some.inj heq
    have hp1 : p.1 = m := by
      rw [← hfst, ← hpair]
    apply hex
    rw [hp1]
    simp [excludedFromRank, h1, h2]

/-- Witness for C5 at a concrete state. -/
theorem C5_witness :
    (tracker5 "gemini-2.0-flash").is_healthy = some false ∧
    2 ≤ (tracker5 "gemini-2.0-flash").consecutive_failures ∧
    "gemini-2.0-flash" ∉ get_suitable_models tracker5 "creative_writing" :=
  ⟨by decide, by decide,
    C5_unhealthy_excluded_from_rank tracker5 "creative_writing"
      "gemini-2.0-flash" (by decide) (by decide)⟩

/-!  Claim C6: the composite suitability score. -/

/-- **C6** (confirmed).  Whenever each registry model's success counter
is at most its call counter (true of every reachable tracker state),
`_get_suitable_models` returns exactly the claim's ranking: each
non-excluded backend scored by affinity + tier + health + success-rate +
speed bonuses, sorted by score descending with ties broken by registry
insertion order. -/
theorem C6_rank_matches_claim_formula (tracker : Tracker)
    (task_type : String)
    (h : ∀ p ∈ AI_MODELS,
      (tracker p.1).total_successes ≤ (tracker p.1).total_calls) :
    get_suitable_models tracker task_type = claimRank tracker task_type := by
  rw [get_suitable_models, claimRank]
  have : AI_MODELS.filterMap (fun p =>
      if excludedFromRank (tracker p.1) then none
      else some (p.1, suitabilityScore p.2 (tracker p.1) task_type))
    = AI_MODELS.filterMap (fun p =>
      if excludedFromRank (tracker p.1) then none
      else some (p.1, claimScore p.2 (tracker p.1) task_type)) := by
    apply List.filterMap_congr
    intro p hp
    rw [suitabilityScore_eq_claimScore p.2 (tracker p.1) task_type (h p hp)]
  rw [this]

/-- Witness for C6 at the initial tracker state. -/
theorem C6_witness :
    get_suitable_models initTracker "creative_writing"
      = claimRank initTracker "creative_writing" :=
  C6_rank_matches_claim_formula initTracker "creative_writing"
    (fun _ _ => le_rfl)

/-!  Claims C7 and C8: the retry/backoff engine. -/

/-- **C7** (confirmed).  `retry_with_backoff` applied to an operation
that fails on every attempt never raises: it returns `none` after
exactly 5 attempts (the default maximum) and increments the persisted
cumulative failure counter by exactly 1. -/
theorem C7_always_fail_five_attempts {α : Type} (op : Nat → Option α)
    (ft : FTData) (h : ∀ i, op i = none) :
    (retry_with_backoff op MAX_RETRY_ATTEMPTS ft).result = none ∧
    (retry_with_backoff op MAX_RETRY_ATTEMPTS ft).attempts = [1, 2, 3, 4, 5] ∧
    (retry_with_backoff op MAX_RETRY_ATTEMPTS ft).ft.total_failures
      = ft.total_failures + 1 := by
  refine ⟨?_, ?_, ?_⟩ <;>
    simp [retry_with_backoff, MAX_RETRY_ATTEMPTS, List.range', retryGo, h,
      log_failure, increment_failure_counter, calculate_retry_delay,
      RETRY_BASE_DELAY, RETRY_MAX_DELAY]

/-- Witness for C7 at a concrete operation and state. -/
theorem C7_witness :
    (retry_with_backoff alwaysFailOp MAX_RETRY_ATTEMPTS emptyFTData).result = none ∧
    (retry_with_backoff alwaysFailOp MAX_RETRY_ATTEMPTS emptyFTData).attempts
      = [1, 2, 3, 4, 5] ∧
    (retry_with_backoff alwaysFailOp MAX_RETRY_ATTEMPTS emptyFTData).ft.total_failures
      = emptyFTData.total_failures + 1 :=
  C7_always_fail_five_attempts alwaysFailOp emptyFTData (fun _ => rfl)

/-- **C8** (confirmed).  `retry_with_backoff` applied to an operation
that fails exactly `k < 5` times and then succeeds returns the success
result and performs exactly `k` backoff sleeps, whose base delays follow
`min(1 * 2 ^ (attempt - 1), 32)` and are therefore non-decreasing and
capped at 32 seconds. -/
theorem C8_eventual_success_backoff {α : Type} (k : Nat)
    (op : Nat → Option α) (v : α) (ft : FTData) (hk : k < 5)
    (hfail : ∀ i ∈ List.range' 1 k, op i = none)
    (hsucc : op (k + 1) = some v) :
    (retry_with_backoff op MAX_RETRY_ATTEMPTS ft).result = some v ∧
    (retry_with_backoff op MAX_RETRY_ATTEMPTS ft).sleeps
        = (List.range' 1 k).map (fun a => min (1 * 2 ^ (a - 1)) 32) ∧
    (retry_with_backoff op MAX_RETRY_ATTEMPTS ft).sleeps.length = k ∧
    List.Chain' (· ≤ ·) (retry_with_backoff op MAX_RETRY_ATTEMPTS ft).sleeps ∧
    ∀ d ∈ (retry_with_backoff op MAX_RETRY_ATTEMPTS ft).sleeps, d ≤ 32 := by
  interval_cases k
  · refine ⟨?_, ?_, ?_, ?_, ?_⟩ <;>
      simp [retry_with_backoff, MAX_RETRY_ATTEMPTS, List.range', retryGo, hsucc,
        calculate_retry_delay, RETRY_BASE_DELAY, RETRY_MAX_DELAY]
  · have o1 : op 1 = none := hfail 1 (by decide)
    refine ⟨?_, ?_, ?_, ?_, ?_⟩ <;>
      simp [retry_with_backoff, MAX_RETRY_ATTEMPTS, List.range', retryGo, o1,
        hsucc, calculate_retry_delay, RETRY_BASE_DELAY, RETRY_MAX_DELAY]
  · have o1 : op 1 = none := hfail 1 (by decide)
    have o2 : op 2 = none := hfail 2 (by decide)
    refine ⟨?_, ?_, ?_, ?_, ?_⟩ <;>
      simp [retry_with_backoff, MAX_RETRY_ATTEMPTS, List.range', retryGo, o1,
        o2, hsucc, calculate_retry_delay, RETRY_BASE_DELAY, RETRY_MAX_DELAY]
  · have o1 : op 1 = none := hfail 1 (by decide)
    have o2 : op 2 = none := hfail 2 (by decide)
    have o3 : op 3 = none := hfail 3 (by decide)
    refine ⟨?_, ?_, ?_, ?_, ?_⟩ <;>
      simp [retry_with_backoff, MAX_RETRY_ATTEMPTS, List.range', retryGo, o1,
        o2, o3, hsucc, calculate_retry_delay, RETRY_BASE_DELAY, RETRY_MAX_DELAY]
  · have o1 : op 1 = none := hfail 1 (by decide)
    have o2 : op 2 = none := hfail 2 (by decide)
    have o3 : op 3 = none := hfail 3 (by decide)
    have o4 : op 4 = none := hfail 4 (by decide)
    refine ⟨?_, ?_, ?_, ?_, ?_⟩ <;>
      simp [retry_with_backoff, MAX_RETRY_ATTEMPTS, List.range', retryGo, o1,
        o2, o3, o4, hsucc, calculate_retry_delay, RETRY_BASE_DELAY,
        RETRY_MAX_DELAY]

/-- Witness for C8 at a concrete operation (k = 2) and state. -/
theorem C8_witness :
    (retry_with_backoff failTwiceOp MAX_RETRY_ATTEMPTS emptyFTData).result = some 42 ∧
    (retry_with_backoff failTwiceOp MAX_RETRY_ATTEMPTS emptyFTData).sleeps
        = (List.range' 1 2).map (fun a => min (1 * 2 ^ (a - 1)) 32) ∧
    (retry_with_backoff failTwiceOp MAX_RETRY_ATTEMPTS emptyFTData).sleeps.length = 2 ∧
    List.Chain' (· ≤ ·) (retry_with_backoff failTwiceOp MAX_RETRY_ATTEMPTS emptyFTData).sleeps ∧
    ∀ d ∈ (retry_with_backoff failTwiceOp MAX_RETRY_ATTEMPTS emptyFTData).sleeps, d ≤ 32 :=
  C8_eventual_success_backoff 2 failTwiceOp 42 emptyFTData (by decide)
    (by decide) (by decide)

/-!  Claim C9: `consecutive_failures` counts the failures recorded since
the most recent success. -/

/-- **C9** (confirmed).  For every sequence of `mark_success` /
`mark_failure` calls on a backend, `consecutive_failures` equals the
number of failures since the most recent success (or since the start):
every success resets it to 0 and every failure increments it by 1. -/
theorem C9_consecutive_failures_count :
    (∀ (m : String) (ops : List HOp),
      ((applyHOps m ops initTracker) m).consecutive_failures
        = failuresSinceLastSuccess ops) ∧
    (∀ (tracker : Tracker) (m : String) (rt : ℚ),
      ((mark_success tracker m rt) m).consecutive_failures = 0) ∧
    (∀ (tracker : Tracker) (m : String) (e : String),
      ((mark_failure tracker m e) m).consecutive_failures
        = (tracker m).consecutive_failures + 1) := by
  refine ⟨?_, ?_, ?_⟩
  · intro m ops
    induction ops using List.reverseRecOn with
    | nil => simp [applyHOps, initTracker, initStatus, failuresSinceLastSuccess]
    | append_singleton l op ih =>
      rw [applyHOps_append]
      cases op with
      | success rt =>
        simp [healthStep, mark_success, setStatus, failuresSinceLastSuccess,
          isFailOp]
      | failure e =>
        simp only [healthStep, mark_failure, setStatus, if_pos rfl]
        simp [failuresSinceLastSuccess, isFailOp] at ih ⊢
        omega
  · intro tracker m rt
    simp [mark_success, setStatus]
  · intro tracker m e
    simp [mark_failure, setStatus]

/-!  Claim C10: `total_calls = total_successes + total_failures` is an
invariant of `mark_success`, `mark_failure` and `reset_model`. -/

/-- **C10** (confirmed).  Starting from the initial tracker state, every
sequence of `mark_success`, `mark_failure` and `reset_model` calls
preserves `total_calls = total_successes + total_failures`:
`mark_success` increments calls and successes together, `mark_failure`
increments calls and failures together, and `reset_model` changes none
of the three counters. -/
theorem C10_call_counter_invariant :
    (∀ (m : String) (ops : List HOp3) (n : String),
      counterInv ((applyHOps3 m ops initTracker) n)) ∧
    (∀ (tracker : Tracker) (m : String) (rt : ℚ),
      ((mark_success tracker m rt) m).total_calls = (tracker m).total_calls + 1 ∧
      ((mark_success tracker m rt) m).total_successes = (tracker m).total_successes + 1 ∧
      ((mark_success tracker m rt) m).total_failures = (tracker m).total_failures) ∧
    (∀ (tracker : Tracker) (m : String) (e : String),
      ((mark_failure tracker m e) m).total_calls = (tracker m).total_calls + 1 ∧
      ((mark_failure tracker m e) m).total_failures = (tracker m).total_failures + 1 ∧
      ((mark_failure tracker m e) m).total_successes = (tracker m).total_successes) ∧
    (∀ (tracker : Tracker) (m : String),
      ((reset_model tracker m) m).total_calls = (tracker m).total_calls ∧
      ((reset_model tracker m) m).total_successes = (tracker m).total_successes ∧
      ((reset_model tracker m) m).total_failures = (tracker m).total_failures) := by
  refine ⟨?_, ?_, ?_, ?_⟩
  · intro m ops n
    exact counterInv_preserved m ops initTracker
      (fun _ => by simp [initTracker, initStatus, counterInv]) n
  · intro tracker m rt
    refine ⟨?_, ?_, ?_⟩ <;> simp [mark_success, setStatus]
  · intro tracker m e
    refine ⟨?_, ?_, ?_⟩ <;> simp [mark_failure, setStatus]
  · intro tracker m
    refine ⟨?_, ?_, ?_⟩ <;> simp [reset_model, setStatus]
